import Mathlib

/-!
Shallow embedding of the SLO evaluation engine (sloMath.ts and the
Journey/Dashboard call sites) of the slo-dashboard-poc repository.
JavaScript numbers are modelled as rationals; Infinity is modelled by an
explicit extended burn-rate value; JavaScript truthiness of optional
numeric fields is modelled explicitly where the source relies on it.
-/

namespace SloDash

/-- The five indicator types of the SLI model. -/
inductive SLIType
  | availability
  | latency
  | quality
  | freshness
  | correctness
deriving DecidableEq, Repr

/-- Objective direction of an indicator. -/
inductive Direction
  | gte
  | lte
deriving DecidableEq, Repr

/-- Indicator metadata; only the fields the math reads are modelled. -/
structure SLI where
  type : SLIType
  target : ℚ
  objectiveDirection : Direction
deriving DecidableEq, Repr

/-- One sample of a series: timestamp in milliseconds, good/bad counts,
optional latency value and optional latency percentiles. -/
structure DataPoint where
  t : ℚ
  good : ℚ
  bad : ℚ
  value : Option ℚ := none
  p50 : Option ℚ := none
  p90 : Option ℚ := none
  p95 : Option ℚ := none
  p99 : Option ℚ := none
deriving DecidableEq, Repr

/-- Result record of availabilityFromPoints. -/
structure AvailResult where
  pct : ℚ
  good : ℚ
  bad : ℚ
deriving DecidableEq, Repr

/-- availabilityFromPoints: sums good and bad over the points and returns
good over (good plus bad, or 1 when that sum is zero, mirroring the
JavaScript or-fallback) times 100. -/
def availabilityFromPoints (points : List DataPoint) : AvailResult :=
  let g := (points.map (fun p => p.good)).sum
  let b := (points.map (fun p => p.bad)).sum
  let pct := g / (if g + b = 0 then 1 else g + b) * 100
  { pct := pct, good := g, bad := b }

/-- Extended burn-rate value: a finite rational or JavaScript Infinity. -/
inductive BRVal
  | fin (q : ℚ)
  | inf
deriving DecidableEq, Repr

/-- Boolean comparison of a burn-rate value against a rational bound;
Infinity is below no bound. -/
def BRVal.ltQ : BRVal → ℚ → Bool
  | .fin a, q => decide (a < q)
  | .inf, _ => false

/-- Math.max over two burn-rate values (Infinity absorbs). -/
def brMax : BRVal → BRVal → BRVal
  | .inf, _ => .inf
  | .fin _, .inf => .inf
  | .fin a, .fin b => .fin (max a b)

/-- burnRate: error over budget when the budget is positive, Infinity
otherwise. -/
def burnRate (pct objective : ℚ) : BRVal :=
  let err := 100 - pct
  let budget := 100 - objective
  if 0 < budget then .fin (err / budget) else .inf

/-- getCurrentSLIValue: 0 on an empty series; the summed availability
percentage for count-based types; the mean of the value field for
latency. -/
def getCurrentSLIValue (sli : SLI) (dataPoints : List DataPoint) : ℚ :=
  if dataPoints.isEmpty then 0
  else
    match sli.type with
    | .availability | .quality | .freshness | .correctness =>
        (availabilityFromPoints dataPoints).pct
    | .latency =>
        (dataPoints.map (fun p => p.value.getD 0)).sum / (dataPoints.length : ℚ)

/-- getLatencyCompliancePercent: 100 on an empty series, else the
percentage of points whose value field meets the target in the
objective direction. -/
def getLatencyCompliancePercent (sli : SLI) (dataPoints : List DataPoint) : ℚ :=
  if dataPoints.isEmpty then 100
  else
    let meeting := dataPoints.filter (fun p =>
      match sli.objectiveDirection with
      | .lte => decide (p.value.getD 0 ≤ sli.target)
      | .gte => decide (sli.target ≤ p.value.getD 0))
    ((meeting.length : ℚ) / (dataPoints.length : ℚ)) * 100

/-- isSLIMeetingObjective: direction-aware threshold comparison. -/
def isSLIMeetingObjective (sli : SLI) (currentValue : ℚ) : Bool :=
  match sli.objectiveDirection with
  | .gte => decide (sli.target ≤ currentValue)
  | .lte => decide (currentValue ≤ sli.target)

/-- Error-budget result record of calculateErrorBudget. -/
structure ErrorBudget where
  errorBudgetPercent : ℚ
  spent : ℚ
  remaining : ℚ
  spentPercent : ℚ
  remainingPercent : ℚ
deriving DecidableEq, Repr

/-- calculateErrorBudget: budget is 100 minus objective; raw spend is
error over budget when the budget is positive, else 0; the returned
spent is capped above at 1, remaining is max 0 of one minus the raw
spend, and the percent fields mirror them. -/
def calculateErrorBudget (achievedPercent objectivePercent : ℚ) : ErrorBudget :=
  let errorBudgetPercent := 100 - objectivePercent
  let errorPercent := 100 - achievedPercent
  let spent := if 0 < errorBudgetPercent then errorPercent / errorBudgetPercent else 0
  let remaining := max 0 (1 - spent)
  { errorBudgetPercent := errorBudgetPercent
    spent := min 1 spent
    remaining := remaining
    spentPercent := min 100 (spent * 100)
    remainingPercent := remaining * 100 }

/-- Traffic-light status vocabulary. -/
inductive Status
  | ok
  | warn
  | critical
deriving DecidableEq, Repr

/-- getBurnRateStatus: below 1 is ok, below 2 is warn, else critical;
Infinity fails both comparisons and is critical. -/
def getBurnRateStatus : BRVal → Status
  | .fin q => if q < 1 then .ok else if q < 2 then .warn else .critical
  | .inf => .critical

/-- Worst-of-two on the status vocabulary. -/
def statusMax (a b : Status) : Status :=
  match a, b with
  | .critical, _ => .critical
  | _, .critical => .critical
  | .warn, _ => .warn
  | _, .warn => .warn
  | .ok, .ok => .ok

/-- Fixed demo-data end instant, 2025-10-23T23:59:59Z, in epoch
milliseconds; hard-coded in sliceTimeWindow and the dashboard trend
code. -/
def demoEndMs : ℚ := 1761263999000

/-- sliceTimeWindow: keeps points whose timestamp lies in the closed
window of the given length ending at the fixed demo end instant. -/
def sliceTimeWindow (dataPoints : List DataPoint) (windowMs : ℚ) : List DataPoint :=
  if dataPoints.isEmpty then []
  else dataPoints.filter (fun p =>
    decide (demoEndMs - windowMs ≤ p.t) && decide (p.t ≤ demoEndMs))

/-- calculateBurnRateForWindow: slices the window, returns 0 on an empty
window, uses latency compliance percent for latency indicators and the
current SLI value for count-based ones. -/
def calculateBurnRateForWindow (dataPoints : List DataPoint) (windowMs : ℚ)
    (sli : SLI) (objectivePercent : ℚ) : BRVal :=
  let windowData := sliceTimeWindow dataPoints windowMs
  if windowData.isEmpty then .fin 0
  else if sli.type = .latency then
    burnRate (getLatencyCompliancePercent sli windowData) objectivePercent
  else
    burnRate (getCurrentSLIValue sli windowData) objectivePercent

/-- The four canonical burn-rate windows. -/
structure BurnRates where
  w1h : BRVal
  w6h : BRVal
  w24h : BRVal
  w3d : BRVal
deriving DecidableEq, Repr

/-- calculateBurnRates over the 1h, 6h, 24h and 3d lookback windows. -/
def calculateBurnRates (dataPoints : List DataPoint) (sli : SLI)
    (objectivePercent : ℚ) : BurnRates :=
  { w1h := calculateBurnRateForWindow dataPoints 3600000 sli objectivePercent
    w6h := calculateBurnRateForWindow dataPoints 21600000 sli objectivePercent
    w24h := calculateBurnRateForWindow dataPoints 86400000 sli objectivePercent
    w3d := calculateBurnRateForWindow dataPoints 259200000 sli objectivePercent }

/-- Math.max over the four window burn rates, as on the Journey page. -/
def maxBurnRate (br : BurnRates) : BRVal :=
  brMax (brMax (brMax br.w1h br.w6h) br.w24h) br.w3d

/-- Headline status of an SLO on the Journey page: burn-rate status of
the maximum of the four window burn rates. -/
def sloHeadlineStatus (dataPoints : List DataPoint) (sli : SLI)
    (objectivePercent : ℚ) : Status :=
  getBurnRateStatus (maxBurnRate (calculateBurnRates dataPoints sli objectivePercent))

/-- Headline error budget of an SLO on the Journey page: the 28-day
window is sliced and calculateErrorBudget is applied to
getCurrentSLIValue of the window (for latency indicators this is the
mean latency). -/
def journeySLOErrorBudget (sli : SLI) (data : List DataPoint)
    (objectivePercent : ℚ) : ErrorBudget :=
  let windowData := sliceTimeWindow data 2419200000
  calculateErrorBudget (getCurrentSLIValue sli windowData) objectivePercent

/-- Latency percentile tags. -/
inductive Percentile
  | p50
  | p90
  | p95
  | p99
deriving DecidableEq, Repr

/-- A breach period with start and stop timestamps and an optional
percentile tag. -/
structure BreachPeriod where
  start : ℚ
  stop : ℚ
  percentile : Option Percentile
deriving DecidableEq, Repr

/-- JavaScript truthiness-guarded strict comparison: the optional field
must be present and nonzero, and strictly above the target. -/
def truthyGt : Option ℚ → ℚ → Bool
  | some v, target => decide (v ≠ 0) && decide (target < v)
  | none, _ => false

/-- The percentile priority chain of the latency branch of
detectBreachPeriods: p99 before p95 before p90 before p50. -/
def latencyBreachPercentile (sli : SLI) (p : DataPoint) : Option Percentile :=
  if truthyGt p.p99 sli.target then some .p99
  else if truthyGt p.p95 sli.target then some .p95
  else if truthyGt p.p90 sli.target then some .p90
  else if truthyGt p.p50 sli.target then some .p50
  else none

/-- Whether a single point is breaching in detectBreachPeriods: a
latency point breaches when some percentile fires, an availability or
quality point breaches when its single-point ratio is below target, and
every other type never breaches. -/
def isBreachingPoint (sli : SLI) (p : DataPoint) : Bool :=
  match sli.type with
  | .latency => (latencyBreachPercentile sli p).isSome
  | .availability | .quality =>
      decide ((availabilityFromPoints [p]).pct < sli.target)
  | .freshness | .correctness => false

/-- The percentile recorded when a breach run starts at a point. -/
def breachTag (sli : SLI) (p : DataPoint) : Option Percentile :=
  match sli.type with
  | .latency => latencyBreachPercentile sli p
  | _ => none

/-- The scan loop of detectBreachPeriods: cur carries an open breach as
its start timestamp and tag, prevT carries the previous point's
timestamp used when a run closes; an open run at the end of the list
closes at the last timestamp. -/
def detectBreachGo (sli : SLI) :
    List DataPoint → Option (ℚ × Option Percentile) → ℚ → List BreachPeriod
  | [], none, _ => []
  | [], some (s, pc), prevT => [{ start := s, stop := prevT, percentile := pc }]
  | p :: rest, cur, prevT =>
    if isBreachingPoint sli p then
      match cur with
      | none => detectBreachGo sli rest (some (p.t, breachTag sli p)) p.t
      | some c => detectBreachGo sli rest (some c) p.t
    else
      match cur with
      | none => detectBreachGo sli rest none p.t
      | some (s, pc) =>
          { start := s, stop := prevT, percentile := pc } ::
            detectBreachGo sli rest none p.t

/-- detectBreachPeriods: linear scan merging adjacent breaching points
into contiguous periods. -/
def detectBreachPeriods (dataPoints : List DataPoint) (sli : SLI) : List BreachPeriod :=
  if dataPoints.isEmpty then []
  else detectBreachGo sli dataPoints none 0

/-- One output sample of calculateBurnRateTimeSeries. -/
structure BurnRatePoint where
  timestamp : ℚ
  burnRate : BRVal
  p50BurnRate : Option BRVal := none
  p90BurnRate : Option BRVal := none
  p95BurnRate : Option BRVal := none
  p99BurnRate : Option BRVal := none
deriving DecidableEq, Repr

/-- The lookback window of calculateBurnRateTimeSeries: points of the
full series within windowMs before the reference timestamp, inclusive
at both ends. -/
def brWindow (dataPoints : List DataPoint) (t windowMs : ℚ) : List DataPoint :=
  dataPoints.filter (fun p => decide (t - windowMs ≤ p.t) && decide (p.t ≤ t))

/-- Per-point emission of the percentile branch of
calculateBurnRateTimeSeries: skip when the lookback window is empty,
else one burn rate per percentile compliance, p95 as the primary. -/
def latencyBRPoint (dataPoints : List DataPoint) (sli : SLI)
    (objectivePercent windowMs : ℚ) (x : DataPoint) : Option BurnRatePoint :=
  let wd := brWindow dataPoints x.t windowMs
  if wd.isEmpty then none
  else
    let n : ℚ := (wd.length : ℚ)
    let c50 := ((wd.filter (fun p => decide (p.p50.getD 0 ≤ sli.target))).length : ℚ) / n * 100
    let c90 := ((wd.filter (fun p => decide (p.p90.getD 0 ≤ sli.target))).length : ℚ) / n * 100
    let c95 := ((wd.filter (fun p => decide (p.p95.getD 0 ≤ sli.target))).length : ℚ) / n * 100
    let c99 := ((wd.filter (fun p => decide (p.p99.getD 0 ≤ sli.target))).length : ℚ) / n * 100
    some { timestamp := x.t
           burnRate := burnRate c95 objectivePercent
           p50BurnRate := some (burnRate c50 objectivePercent)
           p90BurnRate := some (burnRate c90 objectivePercent)
           p95BurnRate := some (burnRate c95 objectivePercent)
           p99BurnRate := some (burnRate c99 objectivePercent) }

/-- Per-point emission of the availability branch of
calculateBurnRateTimeSeries: skip when the lookback window is empty,
else a single burn rate on the reduced window value. -/
def availBRPoint (dataPoints : List DataPoint) (sli : SLI)
    (objectivePercent windowMs : ℚ) (x : DataPoint) : Option BurnRatePoint :=
  let wd := brWindow dataPoints x.t windowMs
  if wd.isEmpty then none
  else some { timestamp := x.t
              burnRate := burnRate (getCurrentSLIValue sli wd) objectivePercent }

/-- calculateBurnRateTimeSeries: empty input gives an empty output; the
percentile branch is taken for latency indicators whose first point has
a p50 field; otherwise the availability branch runs. -/
def calculateBurnRateTimeSeries (dataPoints : List DataPoint) (sli : SLI)
    (objectivePercent windowHours : ℚ) : List BurnRatePoint :=
  if dataPoints.isEmpty then []
  else
    let windowMs := windowHours * 3600000
    if decide (sli.type = .latency) &&
        (match dataPoints.head? with
         | some p => p.p50.isSome
         | none => false) then
      dataPoints.filterMap (latencyBRPoint dataPoints sli objectivePercent windowMs)
    else
      dataPoints.filterMap (availBRPoint dataPoints sli objectivePercent windowMs)

/-- Trend classification vocabulary of the dashboard recent-changes
panel. -/
inductive ChangeType
  | worsening
  | improving
  | breaching
deriving DecidableEq, Repr

/-- The prior seven-day window of the recent-changes comparison: points
at least fourteen days and strictly more than seven days before the
demo end instant. -/
def priorWindow (data : List DataPoint) : List DataPoint :=
  data.filter (fun p =>
    decide (demoEndMs - 1209600000 ≤ p.t) && decide (p.t < demoEndMs - 604800000))

/-- The relative change used by the recent-changes panel: absolute
difference of the two reduced window values over the prior value, times
100; declared 0 when the prior value is 0. -/
def percentChange (sli : SLI) (data : List DataPoint) : ℚ :=
  let recent := getCurrentSLIValue sli (sliceTimeWindow data 604800000)
  let prev := getCurrentSLIValue sli (priorWindow data)
  if prev ≠ 0 then |recent - prev| / prev * 100 else 0

/-- The per-SLO trend classification of the dashboard recent-changes
panel: none for short series, an empty prior window, or a relative
change below 2 percent; otherwise breaching when the headline status is
critical, else direction-aware improving or worsening. -/
def recentChangeType (sli : SLI) (data : List DataPoint) (sloStatus : Status) :
    Option ChangeType :=
  if data.length < 14 then none
  else if (priorWindow data).isEmpty then none
  else if percentChange sli data < 2 then none
  else
    let recent := getCurrentSLIValue sli (sliceTimeWindow data 604800000)
    let prev := getCurrentSLIValue sli (priorWindow data)
    some (if sloStatus = .critical then .breaching
      else
        match sli.objectiveDirection with
        | .gte => if prev < recent then .improving else .worsening
        | .lte => if recent < prev then .improving else .worsening)

/-- Headline error budget of an SLO on the Dashboard page: the 28-day
window is sliced and latency indicators are first converted to a
compliance percentage before calculateErrorBudget. -/
def dashboardSLOErrorBudget (sli : SLI) (data : List DataPoint)
    (objectivePercent : ℚ) : ErrorBudget :=
  let windowData := sliceTimeWindow data 2419200000
  let performancePercent :=
    if sli.type = .latency then getLatencyCompliancePercent sli windowData
    else getCurrentSLIValue sli windowData
  calculateErrorBudget performancePercent objectivePercent

/-- A latency indicator with objective direction lte and target 100,
used by several concrete scenarios. -/
def latSLI : SLI := { type := .latency, target := 100, objectiveDirection := .lte }

/-- Claim C3: burnRate equals error over budget when the budget is
positive and Infinity otherwise; getBurnRateStatus maps finite rates
below 1 to ok, rates at least 1 and below 2 to warn and rates at least
2 to critical; in particular the burn rate of achieved 99.8 against
objective 99.9 is exactly 2 and its status is critical. -/
theorem c3_burn_rate_and_status (a o : ℚ) :
    (0 < 100 - o → burnRate a o = BRVal.fin ((100 - a) / (100 - o))) ∧
    (100 - o ≤ 0 → burnRate a o = BRVal.inf) ∧
    (∀ q : ℚ,
      (q < 1 → getBurnRateStatus (BRVal.fin q) = Status.ok) ∧
      (1 ≤ q → q < 2 → getBurnRateStatus (BRVal.fin q) = Status.warn) ∧
      (2 ≤ q → getBurnRateStatus (BRVal.fin q) = Status.critical)) ∧
    burnRate (999/10 - 1/10) (999/10) = BRVal.fin 2 ∧
    getBurnRateStatus (burnRate (999/10 - 1/10) (999/10)) = Status.critical := by
  refine ⟨?_, ?_, ?_, ?_, ?_⟩
  · intro h
    have h' : o < 100 := by linarith
    simp [burnRate, h, h']
  · intro h
    have h' : ¬ o < 100 := by linarith
    simp [burnRate, not_lt.mpr h, h']
  · intro q
    refine ⟨fun h => ?_, fun h1 h2 => ?_, fun h => ?_⟩
    · simp [getBurnRateStatus, h]
    · simp [getBurnRateStatus, not_lt.mpr h1, h2]
    · have h1 : ¬ q < 1 := by linarith
      have h2 : ¬ q < 2 := by linarith
      simp [getBurnRateStatus, h1, h2]
  · have h : (0:ℚ) < 100 - 999/10 := by norm_num
    simp only [burnRate, if_pos h]
    norm_num
  · have h : (0:ℚ) < 100 - 999/10 := by norm_num
    simp only [burnRate, if_pos h, getBurnRateStatus]
    norm_num

/-- Witness for C3 at achieved 99, objective 98. -/
theorem c3_burn_rate_and_status_witness :
    burnRate 99 98 = BRVal.fin ((100 - 99) / (100 - 98)) ∧
    getBurnRateStatus (BRVal.fin (1/2)) = Status.ok := by
  refine ⟨(c3_burn_rate_and_status 99 98).1 (by norm_num), ?_⟩
  exact ((c3_burn_rate_and_status 99 98).2.2.1 (1/2)).1 (by norm_num)

/-- Claim C9: with a zero or negative error budget the burn rate is
Infinity while calculateErrorBudget records zero spend and full
remaining budget. -/
theorem c9_zero_budget_asymmetry (a o : ℚ) (h : 100 ≤ o) :
    burnRate a o = BRVal.inf ∧
    (calculateErrorBudget a o).spent = 0 ∧
    (calculateErrorBudget a o).remaining = 1 := by
  have hb : ¬ (0:ℚ) < 100 - o := by linarith
  refine ⟨?_, ?_, ?_⟩
  · simp [burnRate, hb]
  · simp [calculateErrorBudget, hb]
  · simp [calculateErrorBudget, hb]

/-- Witness for C9 at achieved 50, objective 100. -/
theorem c9_zero_budget_asymmetry_witness :
    burnRate 50 100 = BRVal.inf ∧
    (calculateErrorBudget 50 100).spent = 0 ∧
    (calculateErrorBudget 50 100).remaining = 1 :=
  c9_zero_budget_asymmetry 50 100 (by norm_num)

/-- Claim C2, counterexample: at achieved 101 and objective 99 the code
returns spent equal to minus 1, not the claimed clamp to the interval
from 0 to 1. -/
theorem c2_spent_clamp_counterexample :
    (calculateErrorBudget 101 99).spent = -1 ∧
    ¬ (0 ≤ (calculateErrorBudget 101 99).spent) := by
  constructor <;> norm_num [calculateErrorBudget]

/-- Claim C2 as amended: spent is capped above at 1 but not clamped
below at 0, so it lies in the unit interval only when achievedPercent
is at most 100; the remaining fields and percent mirrors relate as
stated. -/
theorem c2_error_budget_amended (a o : ℚ) (h : o < 100) :
    (calculateErrorBudget a o).errorBudgetPercent = 100 - o ∧
    (calculateErrorBudget a o).spent = min 1 ((100 - a) / (100 - o)) ∧
    (calculateErrorBudget a o).remaining = 1 - (calculateErrorBudget a o).spent ∧
    (calculateErrorBudget a o).remaining = max 0 (1 - (calculateErrorBudget a o).spent) ∧
    (calculateErrorBudget a o).spentPercent = (calculateErrorBudget a o).spent * 100 ∧
    (calculateErrorBudget a o).remainingPercent = (calculateErrorBudget a o).remaining * 100 ∧
    (a ≤ 100 → 0 ≤ (calculateErrorBudget a o).spent ∧ (calculateErrorBudget a o).spent ≤ 1) := by
  have hb : (0:ℚ) < 100 - o := by linarith
  have hspent : (calculateErrorBudget a o).spent = min 1 ((100 - a) / (100 - o)) := by
    simp [calculateErrorBudget, hb, h]
  have hrem : (calculateErrorBudget a o).remaining = max 0 (1 - (100 - a) / (100 - o)) := by
    simp [calculateErrorBudget, hb, h]
  have hsp : (calculateErrorBudget a o).spentPercent
      = min 100 ((100 - a) / (100 - o) * 100) := by
    simp [calculateErrorBudget, hb, h]
  have hrp : (calculateErrorBudget a o).remainingPercent
      = max 0 (1 - (100 - a) / (100 - o)) * 100 := by
    simp [calculateErrorBudget, hb, h]
  have hebp : (calculateErrorBudget a o).errorBudgetPercent = 100 - o := by
    simp [calculateErrorBudget]
  refine ⟨hebp, hspent, ?_, ?_, ?_, ?_, ?_⟩
  · rw [hrem, hspent]
    rcases le_total ((100 - a) / (100 - o)) 1 with h1 | h1
    · rw [min_eq_right h1, max_eq_right (by linarith)]
    · rw [min_eq_left h1, max_eq_left (by linarith)]
      norm_num
  · rw [hrem, hspent]
    rcases le_total ((100 - a) / (100 - o)) 1 with h1 | h1
    · rw [min_eq_right h1]
    · rw [min_eq_left h1, max_eq_left (by linarith)]
      norm_num
  · rw [hsp, hspent]
    rcases le_total ((100 - a) / (100 - o)) 1 with h1 | h1
    · rw [min_eq_right h1, min_eq_right (by linarith)]
    · rw [min_eq_left h1, min_eq_left (by linarith)]
      norm_num
  · rw [hrp, hrem]
  · intro ha
    have hr : 0 ≤ (100 - a) / (100 - o) := div_nonneg (by linarith) (by linarith)
    rw [hspent]
    constructor
    · exact le_min (by norm_num) hr
    · exact min_le_left _ _

/-- Witness for C2 at achieved 99.5, objective 99. -/
theorem c2_error_budget_amended_witness :
    (calculateErrorBudget (199/2) 99).spent = min 1 ((100 - 199/2) / (100 - 99)) :=
  (c2_error_budget_amended (199/2) 99 (by norm_num)).2.1

/-- Claim C4, counterexample: a non-empty all-zero count window reduces
to 0 (the claim says 100), and the latency compliance of an empty
series is 100 (the claim says 0). -/
theorem c4_convention_counterexample :
    (availabilityFromPoints [{ t := 0, good := 0, bad := 0 }]).pct = 0 ∧
    getLatencyCompliancePercent latSLI [] = 100 ∧
    (0 : ℚ) ≠ 100 := by
  refine ⟨by norm_num [availabilityFromPoints], by norm_num [getLatencyCompliancePercent], by norm_num⟩

/-- Claim C4 as amended: getCurrentSLIValue of an empty series is 0,
availabilityFromPoints of a non-empty window of all-zero counts is 0
(not 100), and getLatencyCompliancePercent of an empty series is 100
(not 0); the code does not follow a single degenerate-input
convention. -/
theorem c4_degenerate_defaults (pts : List DataPoint) (sli : SLI)
    (_hne : pts ≠ []) (hz : ∀ p ∈ pts, p.good = 0 ∧ p.bad = 0) :
    (availabilityFromPoints pts).pct = 0 ∧
    getCurrentSLIValue sli [] = 0 ∧
    getLatencyCompliancePercent sli [] = 100 := by
  refine ⟨?_, by simp [getCurrentSLIValue], by simp [getLatencyCompliancePercent]⟩
  have hg : (pts.map (fun p => p.good)).sum = 0 := by
    apply List.sum_eq_zero
    intro x hx
    rcases List.mem_map.mp hx with ⟨p, hp, rfl⟩
    exact (hz p hp).1
  simp [availabilityFromPoints, hg]

/-- Witness for C4 at a one-point all-zero series. -/
theorem c4_degenerate_defaults_witness :
    (availabilityFromPoints [{ t := 0, good := 0, bad := 0 }]).pct = 0 ∧
    getCurrentSLIValue latSLI [] = 0 ∧
    getLatencyCompliancePercent latSLI [] = 100 :=
  c4_degenerate_defaults [{ t := 0, good := 0, bad := 0 }] latSLI
    (by simp) (by simp)

/-- Claim C5, counterexample: a freshness point whose per-point ratio 0
is far below the target produces no breach period at all. -/
theorem c5_freshness_counterexample :
    detectBreachPeriods [{ t := 5, good := 0, bad := 10 }]
        { type := .freshness, target := 999/10, objectiveDirection := .gte } = [] ∧
    ((0:ℚ) / (0 + 10) * 100 < 999/10) := by
  constructor
  · rfl
  · norm_num

/-- Claim C5 as amended: in detectBreachPeriods a single availability or
quality point is breaching exactly when its per-point ratio is below
the target, the ratio agreeing with good over good plus bad times 100
whenever the denominator is nonzero; freshness and correctness points
are never breaching. -/
theorem c5_breach_point_amended (sli : SLI) (p : DataPoint) :
    ((sli.type = .availability ∨ sli.type = .quality) →
      (isBreachingPoint sli p = true ↔ (availabilityFromPoints [p]).pct < sli.target)) ∧
    ((sli.type = .freshness ∨ sli.type = .correctness) →
      isBreachingPoint sli p = false) ∧
    (p.good + p.bad ≠ 0 →
      (availabilityFromPoints [p]).pct = p.good / (p.good + p.bad) * 100) := by
  refine ⟨?_, ?_, ?_⟩
  · rintro (ht | ht) <;> simp [isBreachingPoint, ht]
  · rintro (ht | ht) <;> simp [isBreachingPoint, ht]
  · intro hz
    simp [availabilityFromPoints, hz]

/-- Witness for C5 at an availability point with one good and one bad
trial. -/
theorem c5_breach_point_amended_witness :
    isBreachingPoint { type := .availability, target := 999/10, objectiveDirection := .gte }
        { t := 0, good := 1, bad := 1 } = true ↔
      (availabilityFromPoints [{ t := 0, good := 1, bad := 1 }]).pct
        < SLI.target { type := .availability, target := 999/10, objectiveDirection := .gte } :=
  (c5_breach_point_amended
    { type := .availability, target := 999/10, objectiveDirection := .gte }
    { t := 0, good := 1, bad := 1 }).1 (Or.inl rfl)

/-- A latency point carrying its sample in one designated percentile
field, as in the breach-merge scenario. -/
def c6Point (ρ : Percentile) (t v : ℚ) : DataPoint :=
  match ρ with
  | .p50 => { t := t, good := 0, bad := 0, p50 := some v }
  | .p90 => { t := t, good := 0, bad := 0, p90 := some v }
  | .p95 => { t := t, good := 0, bad := 0, p95 := some v }
  | .p99 => { t := t, good := 0, bad := 0, p99 := some v }

/-- The six-point series of the breach-merge scenario: samples 50, 60,
150, 200, 180, 90 at five-minute intervals. -/
def c6Series (ρ : Percentile) : List DataPoint :=
  [c6Point ρ 0 50, c6Point ρ 300000 60, c6Point ρ 600000 150,
   c6Point ρ 900000 200, c6Point ρ 1200000 180, c6Point ρ 1500000 90]

/-- Claim C6: on the six-point scenario series, for each choice of
percentile field, detectBreachPeriods returns exactly one breach period
from the third point's timestamp to the fifth point's timestamp, tagged
with the percentile that is set. -/
theorem c6_breach_merge_scenario :
    detectBreachPeriods (c6Series .p50) latSLI
      = [{ start := 600000, stop := 1200000, percentile := some .p50 }] ∧
    detectBreachPeriods (c6Series .p90) latSLI
      = [{ start := 600000, stop := 1200000, percentile := some .p90 }] ∧
    detectBreachPeriods (c6Series .p95) latSLI
      = [{ start := 600000, stop := 1200000, percentile := some .p95 }] ∧
    detectBreachPeriods (c6Series .p99) latSLI
      = [{ start := 600000, stop := 1200000, percentile := some .p99 }] := by
  refine ⟨rfl, rfl, rfl, rfl⟩

/-- A latency sample point carrying its value in the value field. -/
def latPt (t v : ℚ) : DataPoint := { t := t, good := 0, bad := 0, value := some v }

/-- An availability sample point with good and bad counts. -/
def availPt (t g b : ℚ) : DataPoint := { t := t, good := g, bad := b }

/-- Seven latency points inside the recent seven-day window, all at the
same value. -/
def c8Recent (v : ℚ) : List DataPoint :=
  [latPt 1761263999000 v, latPt 1761263998000 v, latPt 1761263997000 v,
   latPt 1761263996000 v, latPt 1761263995000 v, latPt 1761263994000 v,
   latPt 1761263993000 v]

/-- Seven latency points inside the prior seven-day window, all at the
same value. -/
def c8Prior (v : ℚ) : List DataPoint :=
  [latPt 1760659198000 v, latPt 1760659197000 v, latPt 1760659196000 v,
   latPt 1760659195000 v, latPt 1760659194000 v, latPt 1760659193000 v,
   latPt 1760659192000 v]

/-- A fourteen-point latency series: recent window at value r, prior
window at value p. -/
def c8Lat (r p : ℚ) : List DataPoint := c8Recent r ++ c8Prior p

/-- A fourteen-point availability series: recent window at 95 percent,
prior window at 90 percent. -/
def c8Avail : List DataPoint :=
  [availPt 1761263999000 95 5, availPt 1761263998000 95 5, availPt 1761263997000 95 5,
   availPt 1761263996000 95 5, availPt 1761263995000 95 5, availPt 1761263994000 95 5,
   availPt 1761263993000 95 5,
   availPt 1760659198000 90 10, availPt 1760659197000 90 10, availPt 1760659196000 90 10,
   availPt 1760659195000 90 10, availPt 1760659194000 90 10, availPt 1760659193000 90 10,
   availPt 1760659192000 90 10]

/-- An availability indicator with objective direction gte. -/
def availGteSLI : SLI := { type := .availability, target := 99, objectiveDirection := .gte }

/-- The two-point latency series of the error-budget divergence
scenario: values 200 and 0 just before the demo end instant, mean 100
but compliance 50 percent against target 100. -/
def c1Data : List DataPoint :=
  [latPt 1761263999000 200, latPt 1761263998000 0]

lemma brMax_ltQ (x y : BRVal) (q : ℚ) :
    (brMax x y).ltQ q = (x.ltQ q && y.ltQ q) := by
  cases x with
  | inf => cases y <;> simp [brMax, BRVal.ltQ]
  | fin a =>
    cases y with
    | inf => simp [brMax, BRVal.ltQ]
    | fin b =>
      by_cases h1 : a < q <;> by_cases h2 : b < q <;>
        simp [brMax, BRVal.ltQ, h1, h2, max_lt_iff]

lemma getBurnRateStatus_brMax (x y : BRVal) :
    getBurnRateStatus (brMax x y)
      = statusMax (getBurnRateStatus x) (getBurnRateStatus y) := by
  have hcl : ∀ b, statusMax Status.critical b = Status.critical := by
    intro b; cases b <;> rfl
  cases x with
  | inf => cases y <;> simp [brMax, getBurnRateStatus, hcl]
  | fin a =>
    cases y with
    | inf =>
      simp only [brMax, getBurnRateStatus]
      split_ifs <;> rfl
    | fin b =>
      simp only [brMax, getBurnRateStatus]
      rcases le_total a b with h | h
      · rw [max_eq_right h]
        split_ifs <;> first | rfl | (exfalso; linarith)
      · rw [max_eq_left h]
        split_ifs <;> first | rfl | (exfalso; linarith)

lemma status_critical_iff (x : BRVal) :
    getBurnRateStatus x = Status.critical ↔ x.ltQ 2 = false := by
  cases x with
  | inf => simp [getBurnRateStatus, BRVal.ltQ]
  | fin q =>
    by_cases h1 : q < 1
    · have h2 : q < 2 := by linarith
      simp [getBurnRateStatus, BRVal.ltQ, h1, h2]
    · by_cases h2 : q < 2
      · simp [getBurnRateStatus, BRVal.ltQ, h1, h2]
      · simp [getBurnRateStatus, BRVal.ltQ, h1, h2]

lemma status_ok_iff (x : BRVal) :
    getBurnRateStatus x = Status.ok ↔ x.ltQ 1 = true := by
  cases x with
  | inf => simp [getBurnRateStatus, BRVal.ltQ]
  | fin q =>
    by_cases h1 : q < 1
    · simp [getBurnRateStatus, BRVal.ltQ, h1]
    · by_cases h2 : q < 2
      · simp [getBurnRateStatus, BRVal.ltQ, h1, h2]
      · simp [getBurnRateStatus, BRVal.ltQ, h1, h2]

lemma statusMax_critical_iff (a b : Status) :
    statusMax a b = Status.critical ↔ a = Status.critical ∨ b = Status.critical := by
  cases a <;> cases b <;> simp [statusMax]

lemma statusMax_ok_iff (a b : Status) :
    statusMax a b = Status.ok ↔ a = Status.ok ∧ b = Status.ok := by
  cases a <;> cases b <;> simp [statusMax]

/-- Claim C7: the headline status of an SLO is the burn-rate status of
the maximum of its four window burn rates, which equals the worst
per-window status; it is critical exactly when some window rate is at
least 2 (or infinite), and ok exactly when every window rate is below
1. -/
theorem c7_headline_worst_window (dps : List DataPoint) (sli : SLI) (o : ℚ) :
    sloHeadlineStatus dps sli o =
      statusMax (statusMax (statusMax
        (getBurnRateStatus (calculateBurnRates dps sli o).w1h)
        (getBurnRateStatus (calculateBurnRates dps sli o).w6h))
        (getBurnRateStatus (calculateBurnRates dps sli o).w24h))
        (getBurnRateStatus (calculateBurnRates dps sli o).w3d) ∧
    (sloHeadlineStatus dps sli o = Status.critical ↔
      ((calculateBurnRates dps sli o).w1h.ltQ 2 = false ∨
       (calculateBurnRates dps sli o).w6h.ltQ 2 = false ∨
       (calculateBurnRates dps sli o).w24h.ltQ 2 = false ∨
       (calculateBurnRates dps sli o).w3d.ltQ 2 = false)) ∧
    (sloHeadlineStatus dps sli o = Status.ok ↔
      ((calculateBurnRates dps sli o).w1h.ltQ 1 = true ∧
       (calculateBurnRates dps sli o).w6h.ltQ 1 = true ∧
       (calculateBurnRates dps sli o).w24h.ltQ 1 = true ∧
       (calculateBurnRates dps sli o).w3d.ltQ 1 = true)) := by
  have hmax : sloHeadlineStatus dps sli o
      = getBurnRateStatus (brMax (brMax (brMax
          (calculateBurnRates dps sli o).w1h
          (calculateBurnRates dps sli o).w6h)
          (calculateBurnRates dps sli o).w24h)
          (calculateBurnRates dps sli o).w3d) := rfl
  refine ⟨?_, ?_, ?_⟩
  · rw [hmax, getBurnRateStatus_brMax, getBurnRateStatus_brMax, getBurnRateStatus_brMax]
  · rw [hmax, status_critical_iff, brMax_ltQ, brMax_ltQ, brMax_ltQ]
    simp only [Bool.and_eq_false_iff, or_assoc]
  · rw [hmax, status_ok_iff, brMax_ltQ, brMax_ltQ, brMax_ltQ]
    simp [and_assoc]

/-- Claim C1 (code bug, evaluated at the failing input): on the Journey
page the headline error budget of a latency SLO is computed from
getCurrentSLIValue, the mean latency, instead of the compliance
percentage; on the scenario series the mean is exactly on target so the
Journey budget reports zero spend while the compliance-based budget
(the Dashboard page path) reports the budget fully spent; by contrast
calculateBurnRateForWindow does use the compliance percentage. -/
theorem c1_latency_budget_divergence :
    (journeySLOErrorBudget latSLI c1Data (999/10)).spent = 0 ∧
    (dashboardSLOErrorBudget latSLI c1Data (999/10)).spent = 1 ∧
    (journeySLOErrorBudget latSLI c1Data (999/10)).spent ≠
      (dashboardSLOErrorBudget latSLI c1Data (999/10)).spent ∧
    dashboardSLOErrorBudget latSLI c1Data (999/10)
      = calculateErrorBudget
          (getLatencyCompliancePercent latSLI (sliceTimeWindow c1Data 2419200000))
          (999/10) ∧
    calculateBurnRateForWindow c1Data 2419200000 latSLI (999/10)
      = burnRate
          (getLatencyCompliancePercent latSLI (sliceTimeWindow c1Data 2419200000))
          (999/10) := by
  have hslice : sliceTimeWindow c1Data 2419200000 = c1Data := by
    norm_num [sliceTimeWindow, c1Data, latPt, demoEndMs]
  have hmean : getCurrentSLIValue latSLI c1Data = 100 := by
    norm_num [getCurrentSLIValue, latSLI, c1Data, latPt]
  have hcomp : getLatencyCompliancePercent latSLI c1Data = 50 := by
    norm_num [getLatencyCompliancePercent, latSLI, c1Data, latPt]
  have hj : (journeySLOErrorBudget latSLI c1Data (999/10)).spent = 0 := by
    simp only [journeySLOErrorBudget, hslice, hmean]
    norm_num [calculateErrorBudget]
  have hd : (dashboardSLOErrorBudget latSLI c1Data (999/10)).spent = 1 := by
    simp only [dashboardSLOErrorBudget, hslice]
    rw [if_pos (show latSLI.type = SLIType.latency from rfl), hcomp]
    norm_num [calculateErrorBudget, min_def]
  refine ⟨hj, hd, ?_, ?_, ?_⟩
  · rw [hj, hd]
    norm_num
  · simp only [dashboardSLOErrorBudget, hslice]
    norm_num [latSLI]
  · simp only [calculateBurnRateForWindow, hslice]
    norm_num [latSLI, c1Data, latPt]

lemma isEmpty_false_of_mem {α : Type} {l : List α} {x : α} (h : x ∈ l) :
    l.isEmpty = false := by
  cases l with
  | nil => cases h
  | cons a t => rfl

lemma length_filterMap_of_isSome {α β : Type} (f : α → Option β) :
    ∀ l : List α, (∀ x ∈ l, (f x).isSome = true) →
      (l.filterMap f).length = l.length := by
  intro l
  induction l with
  | nil => intro _; rfl
  | cons a t ih =>
    intro h
    rcases Option.isSome_iff_exists.mp (h a (List.mem_cons_self a t)) with ⟨b, hb⟩
    simp [List.filterMap_cons, hb, ih (fun x hx => h x (List.mem_cons_of_mem a hx))]

/-- Claim C10: on a non-empty series with a non-negative lookback, the
window ending at a point's own timestamp always contains that point, so
neither branch of calculateBurnRateTimeSeries ever skips a point and
the output has the same length as the input. -/
theorem c10_timeseries_length (dps : List DataPoint) (sli : SLI) (o wh : ℚ)
    (hwh : 0 ≤ wh) (hne : dps ≠ []) :
    (calculateBurnRateTimeSeries dps sli o wh).length = dps.length := by
  have hw : (0:ℚ) ≤ wh * 3600000 := mul_nonneg hwh (by norm_num)
  have hemp : dps.isEmpty = false := by
    cases dps with
    | nil => exact absurd rfl hne
    | cons a t => rfl
  have key : ∀ x ∈ dps, x ∈ brWindow dps x.t (wh * 3600000) := by
    intro x hx
    refine List.mem_filter.mpr ⟨hx, ?_⟩
    rw [Bool.and_eq_true, decide_eq_true_eq, decide_eq_true_eq]
    exact ⟨by linarith, le_refl _⟩
  simp only [calculateBurnRateTimeSeries, hemp, Bool.false_eq_true, if_false]
  split
  · apply length_filterMap_of_isSome
    intro x hx
    have hne2 : (brWindow dps x.t (wh * 3600000)).isEmpty = false :=
      isEmpty_false_of_mem (key x hx)
    simp [latencyBRPoint, hne2]
  · apply length_filterMap_of_isSome
    intro x hx
    have hne2 : (brWindow dps x.t (wh * 3600000)).isEmpty = false :=
      isEmpty_false_of_mem (key x hx)
    simp [availBRPoint, hne2]

/-- Witness for C10 at a two-point availability series and a one-hour
lookback. -/
theorem c10_timeseries_length_witness :
    (calculateBurnRateTimeSeries
        [availPt 0 1 0, availPt 1000 3 1] availGteSLI (999/10) 1).length =
      ([availPt 0 1 0, availPt 1000 3 1] : List DataPoint).length :=
  c10_timeseries_length [availPt 0 1 0, availPt 1000 3 1] availGteSLI (999/10) 1
    (by norm_num) (by simp)

/-- Claim C8, counterexample: on a latency series whose recent window
is 5 percent lower than the prior window (improving for an lte
indicator), a critical headline status makes the panel report breaching
instead of the direction-aware classification. -/
theorem c8_breaching_overrides_direction :
    recentChangeType latSLI (c8Lat 95 100) Status.critical
      = some ChangeType.breaching ∧
    (some ChangeType.breaching ≠ some ChangeType.improving) := by
  constructor
  · norm_num [recentChangeType, percentChange, priorWindow, sliceTimeWindow,
      getCurrentSLIValue, latSLI, c8Lat, c8Recent, c8Prior, latPt, demoEndMs, abs]
  · simp

/-- Claim C8 as amended: the trend is none for series shorter than 14
points, an empty prior window, or a relative change below the 2 percent
noise threshold; above the threshold the change is tagged breaching
whenever the headline status is critical and is otherwise classified
direction-aware (gte: higher recent value improving; lte: lower recent
value improving); two 7-day windows differing by exactly 1 percent give
none, and windows differing by 5 percent on a non-critical SLO give a
direction consistent with objectiveDirection. -/
theorem c8_trend_amended (sli : SLI) (data : List DataPoint) (st : Status) :
    (data.length < 14 → recentChangeType sli data st = none) ∧
    ((priorWindow data).isEmpty = true → recentChangeType sli data st = none) ∧
    (percentChange sli data < 2 → recentChangeType sli data st = none) ∧
    (14 ≤ data.length → (priorWindow data).isEmpty = false →
      2 ≤ percentChange sli data →
      recentChangeType sli data st =
        some (if st = Status.critical then ChangeType.breaching
          else
            match sli.objectiveDirection with
            | Direction.gte =>
                if getCurrentSLIValue sli (priorWindow data)
                    < getCurrentSLIValue sli (sliceTimeWindow data 604800000)
                then ChangeType.improving else ChangeType.worsening
            | Direction.lte =>
                if getCurrentSLIValue sli (sliceTimeWindow data 604800000)
                    < getCurrentSLIValue sli (priorWindow data)
                then ChangeType.improving else ChangeType.worsening)) ∧
    recentChangeType latSLI (c8Lat 101 100) Status.ok = none ∧
    recentChangeType latSLI (c8Lat 95 100) Status.ok = some ChangeType.improving ∧
    recentChangeType availGteSLI c8Avail Status.ok = some ChangeType.improving := by
  refine ⟨?_, ?_, ?_, ?_, ?_, ?_, ?_⟩
  · intro h
    simp [recentChangeType, h]
  · intro h
    by_cases h14 : data.length < 14
    · simp [recentChangeType, h14]
    · simp [recentChangeType, h14, h]
  · intro h
    by_cases h14 : data.length < 14
    · simp [recentChangeType, h14]
    · by_cases hpe : (priorWindow data).isEmpty = true
      · simp [recentChangeType, h14, hpe]
      · simp only [Bool.not_eq_true] at hpe
        simp [recentChangeType, h14, hpe, h]
  · intro h14 hpe hpc
    have h14' : ¬ data.length < 14 := not_lt.mpr h14
    have hpc' : ¬ percentChange sli data < 2 := not_lt.mpr hpc
    simp [recentChangeType, h14', hpe, hpc']
  · norm_num [recentChangeType, percentChange, priorWindow, sliceTimeWindow,
      getCurrentSLIValue, latSLI, c8Lat, c8Recent, c8Prior, latPt, demoEndMs, abs]
  · norm_num [recentChangeType, percentChange, priorWindow, sliceTimeWindow,
      getCurrentSLIValue, latSLI, c8Lat, c8Recent, c8Prior, latPt, demoEndMs, abs]
    exact fun h => nomatch h
  · norm_num [recentChangeType, percentChange, priorWindow, sliceTimeWindow,
      getCurrentSLIValue, availabilityFromPoints, availGteSLI, c8Avail, availPt,
      demoEndMs, abs]
    exact fun h => nomatch h

/-- Witness for C8: the above-threshold branch evaluated on the 5
percent improving latency series with an ok status. -/
theorem c8_trend_amended_witness :
    recentChangeType latSLI (c8Lat 95 100) Status.ok =
      some (if Status.ok = Status.critical then ChangeType.breaching
        else
          match latSLI.objectiveDirection with
          | Direction.gte =>
              if getCurrentSLIValue latSLI (priorWindow (c8Lat 95 100))
                  < getCurrentSLIValue latSLI (sliceTimeWindow (c8Lat 95 100) 604800000)
              then ChangeType.improving else ChangeType.worsening
          | Direction.lte =>
              if getCurrentSLIValue latSLI (sliceTimeWindow (c8Lat 95 100) 604800000)
                  < getCurrentSLIValue latSLI (priorWindow (c8Lat 95 100))
              then ChangeType.improving else ChangeType.worsening) :=
  (c8_trend_amended latSLI (c8Lat 95 100) Status.ok).2.2.2.1
    (by norm_num [c8Lat, c8Recent, c8Prior, latPt])
    (by norm_num [priorWindow, c8Lat, c8Recent, c8Prior, latPt, demoEndMs])
    (by norm_num [percentChange, priorWindow, sliceTimeWindow, getCurrentSLIValue,
      latSLI, c8Lat, c8Recent, c8Prior, latPt, demoEndMs, abs])

end SloDash
